import Mathlib

/-!
Shallow embedding of the dual-endpoint failover HTTP client of the
space_apps_hackaton repository (frontend `Api` class, file
`src/unnamed/part_007`, with `src/frontend/src/api.ts` as an earlier
variant of the same class).

The client issues each call first against a primary backend and, on any
failure of that attempt, once against a fallback backend.  We model a
backend as a pure function from the built request to an attempt outcome,
and record the list of (backend, request) attempts actually issued as the
observable trace of a call.
-/

namespace SpaceApps

/-- JavaScript values as they flow through the client: the params/body
argument of `get`/`post` is an arbitrary JS value (`Record<string, any>` /
`any`).  We model the scalar and object shapes the client manipulates. -/
inductive JsVal : Type
  | undefined : JsVal
  | null : JsVal
  | bool : Bool → JsVal
  | num : Int → JsVal
  | str : String → JsVal
  | obj : List (String × JsVal) → JsVal

/-- JavaScript truthiness (`value ? a : b`): `undefined`, `null`, `false`,
`0` and `""` are falsy; every other value, objects included, is truthy. -/
def jsTruthy : JsVal → Bool
  | .undefined => false
  | .null => false
  | .bool b => b
  | .num n => n != 0
  | .str s => s != ""
  | .obj _ => true

/-- The test `value !== undefined` used as the filter in `buildQueryString`. -/
def isUndefined : JsVal → Bool
  | .undefined => true
  | _ => false

/-- JavaScript string coercion as in a template literal: numbers print in
decimal, `null` prints as "null", booleans as "true"/"false", plain objects
as "[object Object]". -/
def jsToString : JsVal → String
  | .undefined => "undefined"
  | .null => "null"
  | .bool true => "true"
  | .bool false => "false"
  | .num n => toString n
  | .str s => s
  | .obj _ => "[object Object]"

/-- Optional-chaining property access `data?.params`: `undefined` on any
non-object receiver or absent key. -/
def jsGet : JsVal → String → JsVal
  | .obj kvs, k =>
    match kvs.lookup k with
    | some v => v
    | none => .undefined
  | _, _ => .undefined

/-- The entries `Object.entries(value)`: key/value pairs of an object; index/character
pairs of a string; empty for the remaining primitives. -/
def jsEntries : JsVal → List (String × JsVal)
  | .obj kvs => kvs
  | .str s => s.data.enum.map (fun p => (toString p.1, .str (String.singleton p.2)))
  | _ => []

/-- The UTF-8 bytes of a Unicode code point. -/
def utf8Bytes (n : Nat) : List Nat :=
  if n < 128 then [n]
  else if n < 2048 then [192 + n / 64, 128 + n % 64]
  else if n < 65536 then [224 + n / 4096, 128 + (n / 64) % 64, 128 + n % 64]
  else [240 + n / 262144, 128 + (n / 4096) % 64, 128 + (n / 64) % 64, 128 + n % 64]

/-- Uppercase hexadecimal digit. -/
def hexDigit (n : Nat) : Char :=
  if n < 10 then Char.ofNat (48 + n) else Char.ofNat (55 + n)

/-- Percent-escape of one byte, e.g. 91 ↦ "%5B". -/
def percentByte (b : Nat) : String :=
  String.singleton '%' ++ String.singleton (hexDigit (b / 16)) ++ String.singleton (hexDigit (b % 16))

/-- The code points `encodeURIComponent` leaves unescaped:
A-Z, a-z, 0-9 and `- _ . ! ~ * ( )` and the apostrophe (code 39). -/
def isUnreservedCp (n : Nat) : Bool :=
  (65 ≤ n && n ≤ 90) || (97 ≤ n && n ≤ 122) || (48 ≤ n && n ≤ 57) ||
  (n == 45) || (n == 95) || (n == 46) || (n == 33) || (n == 126) ||
  (n == 42) || (n == 39) || (n == 40) || (n == 41)

/-- Encoding of one character under `encodeURIComponent`. -/
def encodeChar (c : Char) : String :=
  if isUnreservedCp c.toNat then String.singleton c
  else String.join ((utf8Bytes c.toNat).map percentByte)

/-- The ECMAScript function `encodeURIComponent`: unreserved characters pass through,
every other character is UTF-8 encoded and percent-escaped per byte. -/
def encodeURIComponent (s : String) : String :=
  String.join (s.data.map encodeChar)

/-- One serialized `key=value` pair of the query string:
`encodeURIComponent(key)=encodeURIComponent(value)` with the value first
coerced to a string. -/
def pairString (p : String × JsVal) : String :=
  encodeURIComponent p.1 ++ "=" ++ encodeURIComponent (jsToString p.2)

/-- Embedding of `Api.buildQueryString`: empty string when `params` is falsy or has no
keys; otherwise `?` followed by the `&`-joined encoded pairs of the
entries whose value is not `undefined`. -/
def buildQueryString (params : JsVal) : String :=
  if !(jsTruthy params) || (jsEntries params).length == 0 then ""
  else
    let queryParams :=
      String.intercalate "&" (((jsEntries params).filter (fun p => !(isUndefined p.2))).map pairString)
    "?" ++ queryParams

/-- The two HTTP methods the client issues. -/
inductive Method : Type
  | get : Method
  | post : Method

/-- The short per-attempt timeout the axios instances are created with
(milliseconds). -/
def TIMEOUT : Nat := 5000

/-- The long per-attempt timeout for heavy operations (milliseconds). -/
def LONG_TIMEOUT : Nat := 80000

/-- The request one attempt actually issues: the method, the full URL
(endpoint plus query string for GET), the JSON body (POST only), and the
effective per-attempt timeout. -/
structure Request : Type where
  method : Method
  url : String
  body : Option JsVal
  timeout : Nat

/-- The ways one attempt can fail: network error, client-side timeout,
non-2xx HTTP status, or an unparseable JSON body. -/
inductive Failure : Type
  | network : Failure
  | timeout : Failure
  | httpStatus : Nat → Failure
  | parseError : Failure

/-- Outcome of a single attempt against one backend: the decoded body on
success, or a failure. -/
inductive Attempt : Type
  | ok : JsVal → Attempt
  | fail : Failure → Attempt

/-- A backend, as seen by the client: a deterministic response to each
request it receives. -/
def Behavior : Type := Request → Attempt

/-- Which backend an attempt was sent to. -/
inductive BackendId : Type
  | primary : BackendId
  | fallback : BackendId

instance : DecidableEq BackendId := fun a b => by
  cases a <;> cases b <;> first
    | exact isTrue rfl
    | exact isFalse (fun h => BackendId.noConfusion h)

instance : BEq BackendId := instBEqOfDecidableEq

/-- The request `Api.tryRequest` builds from its arguments.  For GET the
query string comes from `data?.params` when that is truthy, otherwise from
`data` itself; the timeout is the custom override when present, else the
instance default `TIMEOUT`. -/
def buildRequest (method : Method) (endpoint : String) (data : JsVal)
    (customTimeout : Option Nat) : Request :=
  match method with
  | .get =>
    let queryParams :=
      if jsTruthy (jsGet data "params") then buildQueryString (jsGet data "params")
      else buildQueryString data
    { method := .get, url := endpoint ++ queryParams, body := none,
      timeout := customTimeout.getD TIMEOUT }
  | .post =>
    { method := .post, url := endpoint, body := some data,
      timeout := customTimeout.getD TIMEOUT }

/-- Embedding of `Api.tryRequest`: build the request, send it to the given backend, and
return the attempt outcome together with the request that was issued. -/
def tryRequest (beh : Behavior) (method : Method) (endpoint : String)
    (data : JsVal) (customTimeout : Option Nat) : Attempt × Request :=
  let req := buildRequest method endpoint data customTimeout
  (beh req, req)

/-- The single aggregate error message thrown when both attempts fail. -/
def apiFailMsg : String := "Todas as tentativas de API falharam"

/-- Result of one client call: the value returned (or the aggregate
error), together with the trace of attempts issued, in order. -/
def CallResult : Type := Except String JsVal × List (BackendId × Request)

/-- The primary-then-fallback control flow shared by all four client
operations: return the primary body on primary success (the fallback is
not contacted); otherwise issue the fallback attempt and return its body
on success; otherwise reject with the single aggregate error. -/
def failover (a1 a2 : Attempt × Request) : CallResult :=
  match a1.1 with
  | .ok b => (.ok b, [(.primary, a1.2)])
  | .fail _ =>
    match a2.1 with
    | .ok b => (.ok b, [(.primary, a1.2), (.fallback, a2.2)])
    | .fail _ => (.error apiFailMsg, [(.primary, a1.2), (.fallback, a2.2)])

namespace Api

/-- Embedding of `Api.get`: GET with the default short timeout, primary then fallback. -/
def get (pb fb : Behavior) (endpoint : String) (params : JsVal) : CallResult :=
  failover (tryRequest pb .get endpoint params none)
    (tryRequest fb .get endpoint params none)

/-- Embedding of `Api.post`: POST with the default short timeout, primary then fallback. -/
def post (pb fb : Behavior) (endpoint : String) (data : JsVal) : CallResult :=
  failover (tryRequest pb .post endpoint data none)
    (tryRequest fb .post endpoint data none)

/-- Embedding of `Api.getLongRunning`: GET with the long timeout on both attempts; the
params are routed wrapped as `{ params }`. -/
def getLongRunning (pb fb : Behavior) (endpoint : String) (params : JsVal) : CallResult :=
  failover (tryRequest pb .get endpoint (.obj [("params", params)]) (some LONG_TIMEOUT))
    (tryRequest fb .get endpoint (.obj [("params", params)]) (some LONG_TIMEOUT))

/-- Embedding of `Api.postLongRunning`: POST with the long timeout on both attempts. -/
def postLongRunning (pb fb : Behavior) (endpoint : String) (data : JsVal) : CallResult :=
  failover (tryRequest pb .post endpoint data (some LONG_TIMEOUT))
    (tryRequest fb .post endpoint data (some LONG_TIMEOUT))

end Api

/-- Number of requests a call's trace sent to the fallback backend. -/
def fallbackCount (t : List (BackendId × Request)) : Nat :=
  (t.filter (fun e => e.1 == BackendId.fallback)).length

/-- A backend that answers every request with the body 7. -/
def okBeh : Behavior := fun _ => .ok (.num 7)

/-- A backend that fails every request with a network error. -/
def netFailBeh : Behavior := fun _ => .fail .network

/-- A backend that echoes the request body back as the response body. -/
def echoBeh : Behavior := fun req => .ok (req.body.getD .null)

theorem tryRequest_snd (beh : Behavior) (m : Method) (e : String) (d : JsVal)
    (t : Option Nat) : (tryRequest beh m e d t).2 = buildRequest m e d t := rfl

theorem failover_ok (a1 a2 : Attempt × Request) (b : JsVal) (h : a1.1 = .ok b) :
    failover a1 a2 = (.ok b, [(.primary, a1.2)]) := by
  unfold failover
  rw [h]

theorem failover_fail_ok (a1 a2 : Attempt × Request) (err : Failure) (b : JsVal)
    (h1 : a1.1 = .fail err) (h2 : a2.1 = .ok b) :
    failover a1 a2 = (.ok b, [(.primary, a1.2), (.fallback, a2.2)]) := by
  unfold failover
  rw [h1, h2]

theorem failover_fail_fail (a1 a2 : Attempt × Request) (e1 e2 : Failure)
    (h1 : a1.1 = .fail e1) (h2 : a2.1 = .fail e2) :
    failover a1 a2 = (.error apiFailMsg, [(.primary, a1.2), (.fallback, a2.2)]) := by
  unfold failover
  rw [h1, h2]

theorem failover_fail_trace (a1 a2 : Attempt × Request) (err : Failure)
    (h : a1.1 = .fail err) :
    (failover a1 a2).2 = [(.primary, a1.2), (.fallback, a2.2)] := by
  cases h2 : a2.1 with
  | ok b => rw [failover_fail_ok a1 a2 err b h h2]
  | fail e2 => rw [failover_fail_fail a1 a2 err e2 h h2]

theorem failover_trace_requests (a1 a2 : Attempt × Request) (x : BackendId × Request)
    (hx : x ∈ (failover a1 a2).2) : x.2 = a1.2 ∨ x.2 = a2.2 := by
  cases h1 : a1.1 with
  | ok b =>
    rw [failover_ok a1 a2 b h1] at hx
    simp only [List.mem_singleton] at hx
    exact Or.inl (by rw [hx])
  | fail e1 =>
    rw [failover_fail_trace a1 a2 e1 h1] at hx
    rcases List.mem_pair.mp hx with h | h
    · exact Or.inl (by rw [h])
    · exact Or.inr (by rw [h])

/-- C1: for every get or post call, if the primary backend attempt succeeds,
the client returns the primary response body immediately and the fallback
backend receives zero requests. -/
theorem primary_success_no_fallback (pb fb : Behavior) (e : String)
    (p d b bp : JsVal)
    (hg : (tryRequest pb .get e p none).1 = .ok b)
    (hp : (tryRequest pb .post e d none).1 = .ok bp) :
    ((Api.get pb fb e p).1 = .ok b ∧ fallbackCount (Api.get pb fb e p).2 = 0) ∧
    ((Api.post pb fb e d).1 = .ok bp ∧ fallbackCount (Api.post pb fb e d).2 = 0) := by
  constructor
  · rw [Api.get, failover_ok _ _ _ hg]
    exact ⟨rfl, rfl⟩
  · rw [Api.post, failover_ok _ _ _ hp]
    exact ⟨rfl, rfl⟩

/-- Witness for C1 at a concrete always-succeeding primary backend. -/
theorem primary_success_no_fallback_witness :
    ((Api.get okBeh netFailBeh "/a" (.obj [])).1 = .ok (.num 7) ∧
      fallbackCount (Api.get okBeh netFailBeh "/a" (.obj [])).2 = 0) ∧
    ((Api.post okBeh netFailBeh "/a" (.obj [])).1 = .ok (.num 7) ∧
      fallbackCount (Api.post okBeh netFailBeh "/a" (.obj [])).2 = 0) :=
  primary_success_no_fallback okBeh netFailBeh "/a" (.obj []) (.obj [])
    (.num 7) (.num 7) rfl rfl

/-- C2: for every get or post call whose primary attempt fails for any
reason, the fallback backend is attempted exactly once, with a request
identical to the primary one (same method, path, parameters and timeout),
on fallback success its body is returned, and there is no attempt beyond
the single primary-to-fallback transition (the trace is exactly the two
attempts). -/
theorem primary_failure_fallback_once (pb fb : Behavior) (e : String)
    (p d : JsVal) (eg ep : Failure)
    (hg : (tryRequest pb .get e p none).1 = .fail eg)
    (hp : (tryRequest pb .post e d none).1 = .fail ep) :
    ((Api.get pb fb e p).2 =
        [(.primary, buildRequest .get e p none), (.fallback, buildRequest .get e p none)] ∧
      fallbackCount (Api.get pb fb e p).2 = 1 ∧
      ∀ b, (tryRequest fb .get e p none).1 = .ok b → (Api.get pb fb e p).1 = .ok b) ∧
    ((Api.post pb fb e d).2 =
        [(.primary, buildRequest .post e d none), (.fallback, buildRequest .post e d none)] ∧
      fallbackCount (Api.post pb fb e d).2 = 1 ∧
      ∀ b, (tryRequest fb .post e d none).1 = .ok b → (Api.post pb fb e d).1 = .ok b) := by
  constructor
  · refine ⟨?_, ?_, ?_⟩
    · rw [Api.get, failover_fail_trace _ _ _ hg, tryRequest_snd, tryRequest_snd]
    · rw [Api.get, failover_fail_trace _ _ _ hg]
      rfl
    · intro b hb
      rw [Api.get, failover_fail_ok _ _ _ _ hg hb]
  · refine ⟨?_, ?_, ?_⟩
    · rw [Api.post, failover_fail_trace _ _ _ hp, tryRequest_snd, tryRequest_snd]
    · rw [Api.post, failover_fail_trace _ _ _ hp]
      rfl
    · intro b hb
      rw [Api.post, failover_fail_ok _ _ _ _ hp hb]

/-- Witness for C2 at a concrete failing primary and succeeding fallback. -/
theorem primary_failure_fallback_once_witness :
    ((Api.get netFailBeh okBeh "/a" (.obj [])).2 =
        [(.primary, buildRequest .get "/a" (.obj []) none),
          (.fallback, buildRequest .get "/a" (.obj []) none)] ∧
      fallbackCount (Api.get netFailBeh okBeh "/a" (.obj [])).2 = 1 ∧
      ∀ b, (tryRequest okBeh .get "/a" (.obj []) none).1 = .ok b →
        (Api.get netFailBeh okBeh "/a" (.obj [])).1 = .ok b) ∧
    ((Api.post netFailBeh okBeh "/a" (.obj [])).2 =
        [(.primary, buildRequest .post "/a" (.obj []) none),
          (.fallback, buildRequest .post "/a" (.obj []) none)] ∧
      fallbackCount (Api.post netFailBeh okBeh "/a" (.obj [])).2 = 1 ∧
      ∀ b, (tryRequest okBeh .post "/a" (.obj []) none).1 = .ok b →
        (Api.post netFailBeh okBeh "/a" (.obj [])).1 = .ok b) :=
  primary_failure_fallback_once netFailBeh okBeh "/a" (.obj []) (.obj [])
    .network .network rfl rfl

/-- The call returned the primary attempt's body. -/
def primarySuccessCase (r : CallResult) (pa : Attempt) : Prop :=
  ∃ b, pa = .ok b ∧ r.1 = .ok b

/-- The primary attempt failed and the call returned the fallback
attempt's body. -/
def fallbackSuccessCase (r : CallResult) (pa fa : Attempt) : Prop :=
  (∃ e, pa = .fail e) ∧ ∃ b, fa = .ok b ∧ r.1 = .ok b

/-- Both attempts failed and the call rejected with the single aggregate
error. -/
def bothFailedCase (r : CallResult) (pa fa : Attempt) : Prop :=
  (∃ e, pa = .fail e) ∧ (∃ e, fa = .fail e) ∧ r.1 = .error apiFailMsg

/-- Exactly one of the three outcome cases holds. -/
def exactlyOneOutcome (r : CallResult) (pa fa : Attempt) : Prop :=
  (primarySuccessCase r pa ∨ fallbackSuccessCase r pa fa ∨ bothFailedCase r pa fa) ∧
  ¬(primarySuccessCase r pa ∧ fallbackSuccessCase r pa fa) ∧
  ¬(primarySuccessCase r pa ∧ bothFailedCase r pa fa) ∧
  ¬(fallbackSuccessCase r pa fa ∧ bothFailedCase r pa fa)

theorem failover_exactlyOne (a1 a2 : Attempt × Request) :
    exactlyOneOutcome (failover a1 a2) a1.1 a2.1 := by
  refine ⟨?_, ?_, ?_, ?_⟩
  · cases h1 : a1.1 with
    | ok b =>
      exact Or.inl ⟨b, rfl, by rw [failover_ok a1 a2 b h1]⟩
    | fail e1 =>
      cases h2 : a2.1 with
      | ok b =>
        exact Or.inr (Or.inl ⟨⟨e1, rfl⟩, b, rfl, by rw [failover_fail_ok a1 a2 e1 b h1 h2]⟩)
      | fail e2 =>
        exact Or.inr (Or.inr ⟨⟨e1, rfl⟩, ⟨e2, rfl⟩, by rw [failover_fail_fail a1 a2 e1 e2 h1 h2]⟩)
  · rintro ⟨⟨b, hb, -⟩, ⟨e1, he1⟩, -⟩
    rw [hb] at he1
    exact Attempt.noConfusion he1
  · rintro ⟨⟨b, hb, -⟩, ⟨e1, he1⟩, -⟩
    rw [hb] at he1
    exact Attempt.noConfusion he1
  · rintro ⟨⟨-, b, hb, -⟩, ⟨-, ⟨e2, he2⟩, -⟩⟩
    rw [hb] at he2
    exact Attempt.noConfusion he2

/-- C3: every get or post call yields exactly one of the three mutually
exclusive outcomes — primary success body, fallback success body, or the
single aggregate both-failed error — so the returned body is always the
body of exactly one backend, never merged data. -/
theorem call_outcome_trichotomy (pb fb : Behavior) (e : String) (p d : JsVal) :
    exactlyOneOutcome (Api.get pb fb e p)
      (tryRequest pb .get e p none).1 (tryRequest fb .get e p none).1 ∧
    exactlyOneOutcome (Api.post pb fb e d)
      (tryRequest pb .post e d none).1 (tryRequest fb .post e d none).1 :=
  ⟨failover_exactlyOne _ _, failover_exactlyOne _ _⟩

/-- C4: the query string omits every key whose value is `undefined` and
includes every other key as an URL-encoded key=value pair of its
stringified value; in particular for `{a: 1, b: undefined, c: "x"}` the
result is `?a=1&c=x`. -/
theorem query_omits_undefined_keys :
    buildQueryString (.obj [("a", .num 1), ("b", .undefined), ("c", .str "x")]) = "?a=1&c=x" ∧
    ∀ kvs : List (String × JsVal),
      (kvs.filter (fun p => !(isUndefined p.2))).length ≠ 0 →
      buildQueryString (.obj kvs) =
        "?" ++ String.intercalate "&"
          ((kvs.filter (fun p => !(isUndefined p.2))).map pairString) := by
  constructor
  · decide
  · intro kvs h
    have hne : kvs.length ≠ 0 := by
      intro hk
      rw [List.length_eq_zero] at hk
      subst hk
      exact h rfl
    rw [buildQueryString]
    have hcond : (!(jsTruthy (.obj kvs)) || (jsEntries (.obj kvs)).length == 0) = false := by
      simp [jsTruthy, jsEntries, hne]
    rw [hcond]
    rfl

/-- Witness for C4 at the concrete one-entry object `{a: 1}`. -/
theorem query_omits_undefined_keys_witness :
    buildQueryString (.obj [("a", .num 1)]) =
      "?" ++ String.intercalate "&"
        (([("a", JsVal.num 1)].filter (fun p => !(isUndefined p.2))).map pairString) :=
  query_omits_undefined_keys.2 [("a", .num 1)] (by simp [isUndefined])

/-- C6: posting any JSON object against a primary backend that echoes its
request body back yields exactly the posted object. -/
theorem post_echo_roundtrip (fb : Behavior) (e : String) (data : JsVal) :
    (Api.post echoBeh fb e data).1 = .ok data := rfl

theorem buildRequest_timeout (m : Method) (e : String) (d : JsVal) (t : Option Nat) :
    (buildRequest m e d t).timeout = t.getD TIMEOUT := by
  cases m <;> rfl

/-- C5: the client offers long-timeout variants of get and post; an
ordinary get or post call issues every attempt (primary and fallback) with
the short 5000 ms timeout, while a long-running variant issues every
attempt with the long 80000 ms timeout. -/
theorem short_and_long_timeouts (pb fb : Behavior) (e : String) (p d : JsVal) :
    TIMEOUT = 5000 ∧ LONG_TIMEOUT = 80000 ∧
    (∀ x ∈ (Api.get pb fb e p).2, x.2.timeout = TIMEOUT) ∧
    (∀ x ∈ (Api.post pb fb e d).2, x.2.timeout = TIMEOUT) ∧
    (∀ x ∈ (Api.getLongRunning pb fb e p).2, x.2.timeout = LONG_TIMEOUT) ∧
    (∀ x ∈ (Api.postLongRunning pb fb e d).2, x.2.timeout = LONG_TIMEOUT) := by
  refine ⟨rfl, rfl, ?_, ?_, ?_, ?_⟩ <;>
    · intro x hx
      rcases failover_trace_requests _ _ x hx with h | h <;>
        rw [h, tryRequest_snd, buildRequest_timeout] <;> rfl

/-- Witness for C5 on a concrete call whose trace holds both a primary and
a fallback attempt. -/
theorem short_and_long_timeouts_witness :
    ((BackendId.primary, buildRequest .get "/a" (.obj []) none) ∈
      (Api.get netFailBeh okBeh "/a" (.obj [])).2) ∧
    (buildRequest .get "/a" (.obj []) none).timeout = TIMEOUT :=
  have hm : (BackendId.primary, buildRequest .get "/a" (.obj []) none) ∈
      (Api.get netFailBeh okBeh "/a" (.obj [])).2 :=
    List.mem_cons_self _ _
  ⟨hm, (short_and_long_timeouts netFailBeh okBeh "/a" (.obj []) (.obj [])).2.2.1 _ hm⟩

/-- The state shared by all concurrent calls: nothing but the two backend
configurations, set at construction and never written afterwards. -/
structure SharedConfig : Type where
  primary : Behavior
  fallback : Behavior

/-- The transient per-call state of one get/post invocation: about to
issue the primary attempt, about to issue the fallback attempt, or
finished with a result. -/
inductive CallState : Type
  | start : Method → String → JsVal → Option Nat → CallState
  | afterPrimaryFailure : Method → String → JsVal → Option Nat → CallState
  | done : Except String JsVal → CallState

/-- One atomic step of a call: issue the pending attempt against the
shared, read-only configuration. -/
def stepCall (cfg : SharedConfig) : CallState → CallState
  | .start m e d t =>
    match (tryRequest cfg.primary m e d t).1 with
    | .ok b => .done (.ok b)
    | .fail _ => .afterPrimaryFailure m e d t
  | .afterPrimaryFailure m e d t =>
    match (tryRequest cfg.fallback m e d t).1 with
    | .ok b => .done (.ok b)
    | .fail _ => .done (.error apiFailMsg)
  | .done r => .done r

/-- Iterated call steps. -/
def stepN (cfg : SharedConfig) : Nat → CallState → CallState
  | 0, s => s
  | n + 1, s => stepN cfg n (stepCall cfg s)

/-- Interleaved execution of two concurrent calls: the schedule says at
each instant which call performs its next step. -/
def runSchedule (cfg : SharedConfig) : List Bool → CallState × CallState → CallState × CallState
  | [], s => s
  | b :: rest, s =>
    runSchedule cfg rest (if b then (stepCall cfg s.1, s.2) else (s.1, stepCall cfg s.2))

theorem stepN_two_eq_failover (cfg : SharedConfig) (m : Method) (e : String)
    (d : JsVal) (t : Option Nat) :
    stepN cfg 2 (.start m e d t) =
      .done (failover (tryRequest cfg.primary m e d t) (tryRequest cfg.fallback m e d t)).1 := by
  show stepCall cfg (stepCall cfg (.start m e d t)) = _
  cases h1 : (tryRequest cfg.primary m e d t).1 with
  | ok b =>
    rw [failover_ok _ _ _ h1]
    have hs : stepCall cfg (.start m e d t) = .done (.ok b) := by
      simp only [stepCall]
      rw [h1]
    rw [hs]
    rfl
  | fail e1 =>
    have hs : stepCall cfg (.start m e d t) = .afterPrimaryFailure m e d t := by
      simp only [stepCall]
      rw [h1]
    rw [hs]
    cases h2 : (tryRequest cfg.fallback m e d t).1 with
    | ok b =>
      rw [failover_fail_ok _ _ _ _ h1 h2]
      simp only [stepCall]
      rw [h2]
    | fail e2 =>
      rw [failover_fail_fail _ _ _ _ h1 h2]
      simp only [stepCall]
      rw [h2]

/-- C7: two interleaved calls share only the immutable configuration, so
under every schedule each call's state evolves exactly as it does in
isolation (its outcome depends only on how many of its own steps ran,
never on the other call), and running a call's two steps reproduces the
corresponding `Api.get`/`Api.post` outcome. -/
theorem concurrent_calls_independent (cfg : SharedConfig) (sched : List Bool)
    (s1 s2 : CallState) :
    ((runSchedule cfg sched (s1, s2)).1 = stepN cfg (sched.count true) s1 ∧
      (runSchedule cfg sched (s1, s2)).2 = stepN cfg (sched.count false) s2) ∧
    (∀ e p, stepN cfg 2 (.start .get e p none) =
      .done (Api.get cfg.primary cfg.fallback e p).1) ∧
    (∀ e d, stepN cfg 2 (.start .post e d none) =
      .done (Api.post cfg.primary cfg.fallback e d).1) := by
  refine ⟨?_, fun e p => stepN_two_eq_failover cfg .get e p none,
    fun e d => stepN_two_eq_failover cfg .post e d none⟩
  induction sched generalizing s1 s2 with
  | nil => exact ⟨rfl, rfl⟩
  | cons b rest ih =>
    cases b with
    | true =>
      have h := ih (stepCall cfg s1) s2
      refine ⟨?_, ?_⟩
      · have hc : (true :: rest).count true = rest.count true + 1 := by
          simp [List.count_cons]
        rw [hc]
        exact h.1
      · have hc : (true :: rest).count false = rest.count false := by
          simp [List.count_cons]
        rw [hc]
        exact h.2
    | false =>
      have h := ih s1 (stepCall cfg s2)
      refine ⟨?_, ?_⟩
      · have hc : (false :: rest).count true = rest.count true := by
          simp [List.count_cons]
        rw [hc]
        exact h.1
      · have hc : (false :: rest).count false = rest.count false + 1 := by
          simp [List.count_cons]
        rw [hc]
        exact h.2

theorem lookup_mem {kvs : List (String × JsVal)} {k : String} {v : JsVal}
    (h : kvs.lookup k = some v) : (k, v) ∈ kvs := by
  induction kvs with
  | nil => simp [List.lookup] at h
  | cons hd tl ih =>
    obtain ⟨k1, v1⟩ := hd
    rw [List.lookup] at h
    cases hk : k == k1 with
    | true =>
      rw [hk] at h
      simp only [Option.some.injEq] at h
      subst h
      cases eq_of_beq hk
      exact List.mem_cons_self _ _
    | false =>
      rw [hk] at h
      exact List.mem_cons_of_mem _ (ih h)

/-- C8 counterexample: with `params = {params: null, a: 1}` the key
"params" is present, yet its falsy value sends serialization to the whole
object: the sibling key `a` is serialized rather than ignored, and the URL
differs from the one the nested value alone would give. -/
theorem params_key_not_always_routed :
    (buildRequest .get "/p" (.obj [("params", .null), ("a", .num 1)]) none).url =
      "/p?params=null&a=1" ∧
    (buildRequest .get "/p" (.obj [("params", .null), ("a", .num 1)]) none).url ≠
      "/p" ++ buildQueryString (jsGet (.obj [("params", .null), ("a", .num 1)]) "params") := by
  constructor
  · decide
  · decide

/-- C8 amended: if the params object passed to get contains a top-level
key "params" whose value is truthy, then only that nested value is
serialized into the query string and every sibling key is ignored; the
long-running get variant routes its parameters this way by wrapping them
as `{params}` (an object, hence truthy). -/
theorem params_key_truthy_routing (e : String) (kvs : List (String × JsVal))
    (t : Option Nat)
    (h : jsTruthy (jsGet (.obj kvs) "params") = true) :
    (buildRequest .get e (.obj kvs) t).url =
      e ++ buildQueryString (jsGet (.obj kvs) "params") ∧
    ∀ (pb fb : Behavior) (p : List (String × JsVal)) (x : BackendId × Request),
      x ∈ (Api.getLongRunning pb fb e (.obj p)).2 →
      x.2.url = e ++ buildQueryString (.obj p) := by
  constructor
  · simp only [buildRequest]
    rw [h]
    rfl
  · intro pb fb p x hx
    rcases failover_trace_requests _ _ x hx with hr | hr <;>
      · rw [hr, tryRequest_snd]
        simp only [buildRequest]
        have hg : jsGet (.obj [("params", JsVal.obj p)]) "params" = .obj p := rfl
        rw [hg]
        rfl

/-- Witness for C8's amended claim at `{params: {q: 2}, a: 1}`. -/
theorem params_key_truthy_routing_witness :
    jsTruthy (jsGet (.obj [("params", .obj [("q", .num 2)]), ("a", .num 1)]) "params") = true ∧
    (buildRequest .get "/p" (.obj [("params", .obj [("q", .num 2)]), ("a", .num 1)]) none).url =
      "/p" ++ buildQueryString
        (jsGet (.obj [("params", .obj [("q", .num 2)]), ("a", .num 1)]) "params") :=
  ⟨by decide,
    (params_key_truthy_routing "/p" [("params", .obj [("q", .num 2)]), ("a", .num 1)]
      none (by decide)).1⟩

/-- C9: the query string is empty for an empty params object, but a
non-empty params object whose every value is `undefined` yields the bare
string "?", so such a GET's request URL ends in a dangling question
mark. -/
theorem all_undefined_query (e : String) (kvs : List (String × JsVal))
    (h1 : kvs ≠ []) (h2 : ∀ p ∈ kvs, p.2 = JsVal.undefined) :
    buildQueryString (.obj []) = "" ∧
    buildQueryString (.obj kvs) = "?" ∧
    (buildRequest .get e (.obj kvs) none).url = e ++ "?" := by
  have hlen : kvs.length ≠ 0 := by
    intro hk
    exact h1 (List.length_eq_zero.mp hk)
  have hfilter : kvs.filter (fun p => !(isUndefined p.2)) = [] := by
    rw [List.filter_eq_nil_iff]
    intro p hp
    rw [h2 p hp]
    simp [isUndefined]
  have hq : buildQueryString (.obj kvs) = "?" := by
    rw [buildQueryString]
    have hcond : (!(jsTruthy (.obj kvs)) || (jsEntries (.obj kvs)).length == 0) = false := by
      simp [jsTruthy, jsEntries, hlen]
    rw [hcond]
    show "?" ++ String.intercalate "&" ((List.filter _ kvs).map pairString) = "?"
    rw [show (List.filter (fun p => !(isUndefined p.2)) kvs) = [] from hfilter]
    rfl
  have hfalsy : jsTruthy (jsGet (.obj kvs) "params") = false := by
    show jsTruthy (match kvs.lookup "params" with | some v => v | none => JsVal.undefined) = false
    cases hl : kvs.lookup "params" with
    | none => rfl
    | some v =>
      have hv := h2 _ (lookup_mem hl)
      simp only at hv
      rw [hv]
      rfl
  refine ⟨rfl, hq, ?_⟩
  simp only [buildRequest]
  rw [hfalsy]
  show e ++ buildQueryString (.obj kvs) = e ++ "?"
  rw [hq]

/-- Witness for C9 at the concrete all-undefined object `{b: undefined}`. -/
theorem all_undefined_query_witness :
    buildQueryString (.obj [("b", JsVal.undefined)]) = "?" ∧
    (buildRequest .get "/x" (.obj [("b", JsVal.undefined)]) none).url = "/x" ++ "?" :=
  have h := all_undefined_query "/x" [("b", JsVal.undefined)] (List.cons_ne_nil _ _)
    (by
      intro p hp
      rw [List.mem_singleton] at hp
      rw [hp])
  ⟨h.2.1, h.2.2⟩

/-- C10: a params value that is a nested object is serialized by string
coercion as the URL-encoded literal "[object Object]", and a `null` value
is kept (the filter drops only `undefined`) and serialized as the literal
"null". -/
theorem nonscalar_null_serialization :
    (∀ (k : String) (kvs : List (String × JsVal)),
      pairString (k, .obj kvs) = encodeURIComponent k ++ "=" ++ "%5Bobject%20Object%5D") ∧
    (∀ k : String, pairString (k, .null) = encodeURIComponent k ++ "=" ++ "null") ∧
    isUndefined .null = false ∧
    buildQueryString (.obj [("o", .obj [("x", .num 1)]), ("n", .null)]) =
      "?o=%5Bobject%20Object%5D&n=null" := by
  refine ⟨?_, ?_, rfl, by decide⟩
  · intro k kvs
    show encodeURIComponent k ++ "=" ++ encodeURIComponent (jsToString (.obj kvs)) = _
    rw [show jsToString (JsVal.obj kvs) = "[object Object]" from rfl,
      show encodeURIComponent "[object Object]" = "%5Bobject%20Object%5D" from by decide]
  · intro k
    show encodeURIComponent k ++ "=" ++ encodeURIComponent (jsToString .null) = _
    rw [show encodeURIComponent (jsToString JsVal.null) = "null" from by decide]

end SpaceApps
